import Mathlib

/-!
Verification of the geyser repository's compute kernel and transcribed
Vulkan enumeration tables.

The kernel (GLSL, `#version 450`) is:

    layout(push_constant) uniform PCData { int multiple; } pc;
    layout(set = 0, binding = 0) buffer Data { uint data[]; } buf;
    void main() {
        uint idx = gl_GlobalInvocationID.x;
        buf.data[idx] = idx * pc.multiple;
    }

(The GLSL entry point `main` is embedded here as `kernelMain`, since Lean
reserves the name `main` for executable entry points.)

We embed the storage buffer as a `List Nat` whose entries are 32-bit
unsigned values, the push constant as a structure holding an `Int`, the
per-invocation body `kernelMain` as an explicit state transformer on the buffer,
and a dispatch over `N` invocations as a fold of `kernelMain` over the invocation
identifiers `0, …, N-1`.  GLSL `uint` arithmetic is modelled as `Nat`
arithmetic reduced `% 2 ^ 32`; the implicit `int → uint` conversion of
`pc.multiple` is two's-complement reinterpretation, i.e. `Int.emod` by
`2 ^ 32` followed by `Int.toNat`.
-/

/-- The push-constant block `PCData` of the kernel: a single signed
integer `multiple`. -/
structure PCData where
  multiple : Int
deriving Repr, DecidableEq

/-- GLSL implicit conversion `int → uint`: two's-complement
reinterpretation of a signed 32-bit value as an unsigned 32-bit value. -/
def uintOfInt (m : Int) : Nat :=
  (m % 2 ^ 32).toNat

/-- The value the kernel computes for invocation `idx`:
`idx * pc.multiple` in 32-bit unsigned arithmetic (the `int` operand is
implicitly converted to `uint`, and the product wraps modulo `2 ^ 32`). -/
def writtenValue (pc : PCData) (idx : Nat) : Nat :=
  (idx * uintOfInt pc.multiple) % 2 ^ 32

/-- The buffer index the kernel writes for invocation `idx`: the subscript
expression of `buf.data[idx]` is `idx` itself. -/
def invocationTarget (idx : Nat) : Nat :=
  idx

/-- The kernel body `kernelMain`, for one invocation: `idx` is
`gl_GlobalInvocationID.x`, and the single statement stores
`idx * pc.multiple` into `buf.data[idx]`.  `List.set` is a no-op when the
index is out of range; in-bounds accesses are treated by
`dispatchChecked` below. -/
def kernelMain (pc : PCData) (idx : Nat) (buf_data : List Nat) : List Nat :=
  buf_data.set (invocationTarget idx) (writtenValue pc idx)

/-- One dispatch of the kernel over `N` invocations with identifiers
`0, …, N-1` (applied here in identifier order; order-independence is
proved below). -/
def dispatch (N : Nat) (pc : PCData) (buf_data : List Nat) : List Nat :=
  (List.range N).foldl (fun b i => kernelMain pc i b) buf_data

/-- Bounds-checked variant of the dispatch: each invocation's single
buffer access `buf.data[idx]` is guarded, and an out-of-bounds access
aborts the whole dispatch with `none`. -/
def dispatchChecked (N : Nat) (pc : PCData) (buf_data : List Nat) : Option (List Nat) :=
  (List.range N).foldlM
    (fun b i => if invocationTarget i < b.length then some (kernelMain pc i b) else none)
    buf_data

/-!
Transcribed enumeration tables.  Each constant below embeds, with its
source name and numeric value, one enumerator of the C enums
`VkColorSpaceKHR`, `VkAttachmentStoreOp`, `VkAttachmentLoadOp`,
`VkPresentModeKHR`, `VkImageAspectFlagBits`,
`VkSwapchainCreateFlagBitsKHR`, `VkImageViewCreateFlagBits` and
`VkAccelerationStructureCreateFlagBitsKHR`; aliases are defined, as in
the source, by reference to their canonical constant.
-/

def VK_COLOR_SPACE_SRGB_NONLINEAR_KHR : Nat := 0

def VK_COLOR_SPACE_DISPLAY_P3_NONLINEAR_EXT : Nat := 1000104001

def VK_COLOR_SPACE_EXTENDED_SRGB_LINEAR_EXT : Nat := 1000104002

def VK_COLOR_SPACE_DISPLAY_P3_LINEAR_EXT : Nat := 1000104003

def VK_COLOR_SPACE_DCI_P3_NONLINEAR_EXT : Nat := 1000104004

def VK_COLOR_SPACE_BT709_LINEAR_EXT : Nat := 1000104005

def VK_COLOR_SPACE_BT709_NONLINEAR_EXT : Nat := 1000104006

def VK_COLOR_SPACE_BT2020_LINEAR_EXT : Nat := 1000104007

def VK_COLOR_SPACE_HDR10_ST2084_EXT : Nat := 1000104008

def VK_COLOR_SPACE_DOLBYVISION_EXT : Nat := 1000104009

def VK_COLOR_SPACE_HDR10_HLG_EXT : Nat := 1000104010

def VK_COLOR_SPACE_ADOBERGB_LINEAR_EXT : Nat := 1000104011

def VK_COLOR_SPACE_ADOBERGB_NONLINEAR_EXT : Nat := 1000104012

def VK_COLOR_SPACE_PASS_THROUGH_EXT : Nat := 1000104013

def VK_COLOR_SPACE_EXTENDED_SRGB_NONLINEAR_EXT : Nat := 1000104014

def VK_COLOR_SPACE_DISPLAY_NATIVE_AMD : Nat := 1000213000

def VK_COLORSPACE_SRGB_NONLINEAR_KHR : Nat := VK_COLOR_SPACE_SRGB_NONLINEAR_KHR

def VK_COLOR_SPACE_DCI_P3_LINEAR_EXT : Nat := VK_COLOR_SPACE_DISPLAY_P3_LINEAR_EXT

def VK_ATTACHMENT_STORE_OP_STORE : Nat := 0

def VK_ATTACHMENT_STORE_OP_DONT_CARE : Nat := 1

def VK_ATTACHMENT_STORE_OP_NONE : Nat := 1000301000

def VK_ATTACHMENT_STORE_OP_NONE_KHR : Nat := VK_ATTACHMENT_STORE_OP_NONE

def VK_ATTACHMENT_STORE_OP_NONE_QCOM : Nat := VK_ATTACHMENT_STORE_OP_NONE

def VK_ATTACHMENT_STORE_OP_NONE_EXT : Nat := VK_ATTACHMENT_STORE_OP_NONE

def VK_ATTACHMENT_LOAD_OP_LOAD : Nat := 0

def VK_ATTACHMENT_LOAD_OP_CLEAR : Nat := 1

def VK_ATTACHMENT_LOAD_OP_DONT_CARE : Nat := 2

def VK_ATTACHMENT_LOAD_OP_NONE : Nat := 1000400000

def VK_ATTACHMENT_LOAD_OP_NONE_EXT : Nat := VK_ATTACHMENT_LOAD_OP_NONE

def VK_ATTACHMENT_LOAD_OP_NONE_KHR : Nat := VK_ATTACHMENT_LOAD_OP_NONE

def VK_PRESENT_MODE_IMMEDIATE_KHR : Nat := 0

def VK_PRESENT_MODE_MAILBOX_KHR : Nat := 1

def VK_PRESENT_MODE_FIFO_KHR : Nat := 2

def VK_PRESENT_MODE_FIFO_RELAXED_KHR : Nat := 3

def VK_PRESENT_MODE_SHARED_DEMAND_REFRESH_KHR : Nat := 1000111000

def VK_PRESENT_MODE_SHARED_CONTINUOUS_REFRESH_KHR : Nat := 1000111001

def VK_PRESENT_MODE_FIFO_LATEST_READY_EXT : Nat := 1000361000

def VK_IMAGE_ASPECT_COLOR_BIT : Nat := 0x00000001

def VK_IMAGE_ASPECT_DEPTH_BIT : Nat := 0x00000002

def VK_IMAGE_ASPECT_STENCIL_BIT : Nat := 0x00000004

def VK_IMAGE_ASPECT_METADATA_BIT : Nat := 0x00000008

def VK_IMAGE_ASPECT_PLANE_0_BIT : Nat := 0x00000010

def VK_IMAGE_ASPECT_PLANE_1_BIT : Nat := 0x00000020

def VK_IMAGE_ASPECT_PLANE_2_BIT : Nat := 0x00000040

def VK_IMAGE_ASPECT_NONE : Nat := 0

def VK_IMAGE_ASPECT_MEMORY_PLANE_0_BIT_EXT : Nat := 0x00000080

def VK_IMAGE_ASPECT_MEMORY_PLANE_1_BIT_EXT : Nat := 0x00000100

def VK_IMAGE_ASPECT_MEMORY_PLANE_2_BIT_EXT : Nat := 0x00000200

def VK_IMAGE_ASPECT_MEMORY_PLANE_3_BIT_EXT : Nat := 0x00000400

def VK_IMAGE_ASPECT_PLANE_0_BIT_KHR : Nat := VK_IMAGE_ASPECT_PLANE_0_BIT

def VK_IMAGE_ASPECT_PLANE_1_BIT_KHR : Nat := VK_IMAGE_ASPECT_PLANE_1_BIT

def VK_IMAGE_ASPECT_PLANE_2_BIT_KHR : Nat := VK_IMAGE_ASPECT_PLANE_2_BIT

def VK_IMAGE_ASPECT_NONE_KHR : Nat := VK_IMAGE_ASPECT_NONE

def VK_SWAPCHAIN_CREATE_SPLIT_INSTANCE_BIND_REGIONS_BIT_KHR : Nat := 0x00000001

def VK_SWAPCHAIN_CREATE_PROTECTED_BIT_KHR : Nat := 0x00000002

def VK_SWAPCHAIN_CREATE_MUTABLE_FORMAT_BIT_KHR : Nat := 0x00000004

def VK_SWAPCHAIN_CREATE_DEFERRED_MEMORY_ALLOCATION_BIT_EXT : Nat := 0x00000008

def VK_SWAPCHAIN_CREATE_PRESENT_ID_2_BIT_KHR : Nat := 0x00000040

def VK_SWAPCHAIN_CREATE_PRESENT_WAIT_2_BIT_KHR : Nat := 0x00000080

def VK_IMAGE_VIEW_CREATE_FRAGMENT_DENSITY_MAP_DYNAMIC_BIT_EXT : Nat := 0x00000001

def VK_IMAGE_VIEW_CREATE_DESCRIPTOR_BUFFER_CAPTURE_REPLAY_BIT_EXT : Nat := 0x00000004

def VK_IMAGE_VIEW_CREATE_FRAGMENT_DENSITY_MAP_DEFERRED_BIT_EXT : Nat := 0x00000002

def VK_ACCELERATION_STRUCTURE_CREATE_DEVICE_ADDRESS_CAPTURE_REPLAY_BIT_KHR : Nat := 0x00000001

def VK_ACCELERATION_STRUCTURE_CREATE_DESCRIPTOR_BUFFER_CAPTURE_REPLAY_BIT_EXT : Nat := 0x00000008

def VK_ACCELERATION_STRUCTURE_CREATE_MOTION_BIT_NV : Nat := 0x00000004


/-- The non-zero, non-alias constants of `VkSwapchainCreateFlagBitsKHR`,
in source order. -/
def swapchainCreateFlagBitsKHR_distinct : List Nat :=
  [VK_SWAPCHAIN_CREATE_SPLIT_INSTANCE_BIND_REGIONS_BIT_KHR,
   VK_SWAPCHAIN_CREATE_PROTECTED_BIT_KHR,
   VK_SWAPCHAIN_CREATE_MUTABLE_FORMAT_BIT_KHR,
   VK_SWAPCHAIN_CREATE_DEFERRED_MEMORY_ALLOCATION_BIT_EXT,
   VK_SWAPCHAIN_CREATE_PRESENT_ID_2_BIT_KHR,
   VK_SWAPCHAIN_CREATE_PRESENT_WAIT_2_BIT_KHR]

/-- The non-zero, non-alias constants of `VkImageAspectFlagBits`, in
source order (`VK_IMAGE_ASPECT_NONE = 0` and the `_KHR` aliases are
excluded). -/
def imageAspectFlagBits_distinct : List Nat :=
  [VK_IMAGE_ASPECT_COLOR_BIT,
   VK_IMAGE_ASPECT_DEPTH_BIT,
   VK_IMAGE_ASPECT_STENCIL_BIT,
   VK_IMAGE_ASPECT_METADATA_BIT,
   VK_IMAGE_ASPECT_PLANE_0_BIT,
   VK_IMAGE_ASPECT_PLANE_1_BIT,
   VK_IMAGE_ASPECT_PLANE_2_BIT,
   VK_IMAGE_ASPECT_MEMORY_PLANE_0_BIT_EXT,
   VK_IMAGE_ASPECT_MEMORY_PLANE_1_BIT_EXT,
   VK_IMAGE_ASPECT_MEMORY_PLANE_2_BIT_EXT,
   VK_IMAGE_ASPECT_MEMORY_PLANE_3_BIT_EXT]

/-- The non-zero, non-alias constants of `VkImageViewCreateFlagBits`, in
source order. -/
def imageViewCreateFlagBits_distinct : List Nat :=
  [VK_IMAGE_VIEW_CREATE_FRAGMENT_DENSITY_MAP_DYNAMIC_BIT_EXT,
   VK_IMAGE_VIEW_CREATE_DESCRIPTOR_BUFFER_CAPTURE_REPLAY_BIT_EXT,
   VK_IMAGE_VIEW_CREATE_FRAGMENT_DENSITY_MAP_DEFERRED_BIT_EXT]

/-- The non-zero, non-alias constants of
`VkAccelerationStructureCreateFlagBitsKHR`, in source order. -/
def accelerationStructureCreateFlagBitsKHR_distinct : List Nat :=
  [VK_ACCELERATION_STRUCTURE_CREATE_DEVICE_ADDRESS_CAPTURE_REPLAY_BIT_KHR,
   VK_ACCELERATION_STRUCTURE_CREATE_DESCRIPTOR_BUFFER_CAPTURE_REPLAY_BIT_EXT,
   VK_ACCELERATION_STRUCTURE_CREATE_MOTION_BIT_NV]

lemma length_main (pc : PCData) (idx : Nat) (buf : List Nat) :
    (kernelMain pc idx buf).length = buf.length := by
  simp [kernelMain]

lemma length_foldl_main (pc : PCData) :
    ∀ (l : List Nat) (buf : List Nat),
      (l.foldl (fun b i => kernelMain pc i b) buf).length = buf.length := by
  intro l
  induction l with
  | nil => intro buf; rfl
  | cons i l ih =>
    intro buf
    simpa [List.foldl_cons, length_main] using ih (kernelMain pc i buf)

lemma length_dispatch (N : Nat) (pc : PCData) (buf : List Nat) :
    (dispatch N pc buf).length = buf.length :=
  length_foldl_main pc (List.range N) buf

/-- Pointwise characterization of folding the kernel body over any list of
invocation identifiers: slot `j` holds `writtenValue pc j` exactly when
some listed invocation targets it and it is in range, and is untouched
otherwise.  (The stored value depends only on the slot's own index, so
duplicates in the list are harmless.) -/
lemma getElem?_foldl_main (pc : PCData) :
    ∀ (l : List Nat) (buf : List Nat) (j : Nat),
      (l.foldl (fun b i => kernelMain pc i b) buf)[j]? =
        if j ∈ l ∧ j < buf.length then some (writtenValue pc j) else buf[j]? := by
  intro l
  induction l with
  | nil => intro buf j; simp
  | cons i l ih =>
    intro buf j
    rw [List.foldl_cons, ih (kernelMain pc i buf) j]
    simp only [kernelMain, invocationTarget, List.length_set, List.getElem?_set, List.mem_cons]
    rcases Nat.lt_or_ge j buf.length with hj | hj
    · by_cases hjl : j ∈ l
      · simp [hjl, hj]
      · by_cases hij : i = j
        · subst hij
          simp [hjl, hj]
        · have hji : ¬j = i := fun h => hij h.symm
          simp [hjl, hij, hji, hj]
    · have hnone : buf[j]? = none := List.getElem?_eq_none (by omega)
      have hj2 : ¬j < buf.length := Nat.not_lt.mpr hj
      by_cases hij : i = j
      · subst hij
        simp [hj2, hnone]
      · have hji : ¬j = i := fun h => hij h.symm
        simp [hij, hji, hj2, hnone]

lemma getElem?_dispatch (N : Nat) (pc : PCData) (buf : List Nat) (j : Nat) :
    (dispatch N pc buf)[j]? =
      if j < N ∧ j < buf.length then some (writtenValue pc j) else buf[j]? := by
  rw [dispatch, getElem?_foldl_main pc (List.range N) buf j]
  simp [List.mem_range]

/-- The stored value agrees with the specification's reading of
`idx * multiple` "as a 32-bit unsigned value": the mathematical-integer
product wrapped into `[0, 2 ^ 32)`. -/
lemma writtenValue_eq_wrap (m : Int) (i : Nat) :
    writtenValue ⟨m⟩ i = (((i : Int) * m) % 2 ^ 32).toNat := by
  unfold writtenValue uintOfInt
  have hM : (0 : Int) ≤ m % 2 ^ 32 := Int.emod_nonneg m (by positivity)
  have key : ((i : Int) * (m % 2 ^ 32)) % 2 ^ 32 = ((i : Int) * m) % 2 ^ 32 := by
    rw [Int.mul_emod, Int.emod_emod_of_dvd m dvd_rfl, ← Int.mul_emod]
  have hcast : ((i * (m % 2 ^ 32).toNat % 2 ^ 32 : Nat) : Int) =
      ((i : Int) * (m % 2 ^ 32)) % 2 ^ 32 := by
    rw [Int.natCast_mod, Nat.cast_mul, Int.toNat_of_nonneg hM]
    norm_num
  calc i * (m % 2 ^ 32).toNat % 2 ^ 32
      = ((i * (m % 2 ^ 32).toNat % 2 ^ 32 : Nat) : Int).toNat := (Int.toNat_natCast _).symm
    _ = (((i : Int) * m) % 2 ^ 32).toNat := by rw [hcast, key]

/-- C1: for every dispatch size `N`, integer multiplier `m`, and output
buffer of length at least `N`, after one dispatch over `N` invocations,
slot `i` of the buffer equals `i * m` wrapped to a 32-bit unsigned value,
for every `i` in `[0, N)`. -/
theorem dispatch_slot_eq_index_mul_multiple (N : Nat) (m : Int) (buf : List Nat)
    (hlen : N ≤ buf.length) (i : Nat) (hi : i < N) :
    (dispatch N ⟨m⟩ buf)[i]? = some ((((i : Int) * m) % 2 ^ 32).toNat) := by
  rw [getElem?_dispatch, if_pos ⟨hi, lt_of_lt_of_le hi hlen⟩, writtenValue_eq_wrap]

theorem dispatch_slot_eq_index_mul_multiple_witness :
    (3 : Nat) ≤ ([9, 9, 9] : List Nat).length ∧ (2 : Nat) < 3 ∧
      (dispatch 3 ⟨5⟩ [9, 9, 9])[2]? = some ((((2 : Nat) : Int) * 5 % 2 ^ 32).toNat) :=
  ⟨by decide, by decide,
    dispatch_slot_eq_index_mul_multiple 3 5 [9, 9, 9] (by decide) 2 (by decide)⟩

/-- C2: after one dispatch over `N` invocations on a buffer of length at
least `N`: slots at indices `N` and above are unchanged; each slot
`j ∈ [0, N)` is targeted by exactly one invocation, namely the one whose
identifier is `j` itself; and a single invocation `i` leaves every slot
other than its own target untouched. -/
theorem dispatch_frame_and_single_writer (N : Nat) (m : Int) (buf : List Nat)
    (hlen : N ≤ buf.length) :
    (∀ j, N ≤ j → (dispatch N ⟨m⟩ buf)[j]? = buf[j]?) ∧
      (∀ j, j < N → ((List.range N).map invocationTarget).count j = 1 ∧
        invocationTarget j = j) ∧
      (∀ i j, j ≠ invocationTarget i → (kernelMain ⟨m⟩ i buf)[j]? = buf[j]?) := by
  refine ⟨?_, ?_, ?_⟩
  · intro j hj
    rw [getElem?_dispatch, if_neg (fun hc => absurd hc.1 (Nat.not_lt.mpr hj))]
  · intro j hj
    have hmap : (List.range N).map invocationTarget = List.range N := by
      rw [show invocationTarget = fun idx : Nat => idx from rfl]
      exact List.map_id' (List.range N)
    refine ⟨?_, rfl⟩
    rw [hmap]
    exact List.count_eq_one_of_mem (List.nodup_range N) (List.mem_range.mpr hj)
  · intro i j hne
    rw [kernelMain, List.getElem?_set, if_neg (fun h => hne h.symm)]

theorem dispatch_frame_and_single_writer_witness :
    (2 : Nat) ≤ ([4, 4, 4] : List Nat).length ∧
      ((∀ j, 2 ≤ j → (dispatch 2 ⟨7⟩ [4, 4, 4])[j]? = ([4, 4, 4] : List Nat)[j]?) ∧
        (∀ j, j < 2 → ((List.range 2).map invocationTarget).count j = 1 ∧
          invocationTarget j = j) ∧
        (∀ i j, j ≠ invocationTarget i →
          (kernelMain ⟨7⟩ i [4, 4, 4])[j]? = ([4, 4, 4] : List Nat)[j]?)) :=
  ⟨by decide, dispatch_frame_and_single_writer 2 7 [4, 4, 4] (by decide)⟩

/-- C3: concrete scenarios from the specification.  With `N = 1, m = 1`
slot 0 equals 0; with `N = 4, m = 2` slots 0–3 equal 0, 2, 4, 6; with
`N = 8, m = 0` all eight slots equal 0. -/
theorem dispatch_concrete_scenarios :
    (∀ buf : List Nat, 1 ≤ buf.length → (dispatch 1 ⟨1⟩ buf)[0]? = some 0) ∧
      (∀ buf : List Nat, 4 ≤ buf.length →
        (dispatch 4 ⟨2⟩ buf)[0]? = some 0 ∧ (dispatch 4 ⟨2⟩ buf)[1]? = some 2 ∧
          (dispatch 4 ⟨2⟩ buf)[2]? = some 4 ∧ (dispatch 4 ⟨2⟩ buf)[3]? = some 6) ∧
      (∀ buf : List Nat, 8 ≤ buf.length → ∀ i, i < 8 →
        (dispatch 8 ⟨0⟩ buf)[i]? = some 0) := by
  refine ⟨?_, ?_, ?_⟩
  · intro buf hlen
    rw [getElem?_dispatch, if_pos ⟨by omega, by omega⟩]
    norm_num [writtenValue, uintOfInt]
  · intro buf hlen
    refine ⟨?_, ?_, ?_, ?_⟩ <;>
      [rw [getElem?_dispatch, if_pos ⟨by omega, by omega⟩];
       rw [getElem?_dispatch, if_pos ⟨by omega, by omega⟩];
       rw [getElem?_dispatch, if_pos ⟨by omega, by omega⟩];
       rw [getElem?_dispatch, if_pos ⟨by omega, by omega⟩]] <;>
      norm_num [writtenValue, uintOfInt] <;> decide
  · intro buf hlen i hi
    rw [getElem?_dispatch, if_pos ⟨hi, by omega⟩]
    norm_num [writtenValue, uintOfInt]

theorem dispatch_concrete_scenarios_witness :
    (1 : Nat) ≤ ([9] : List Nat).length ∧
      (4 : Nat) ≤ ([9, 9, 9, 9] : List Nat).length ∧
      (8 : Nat) ≤ (List.replicate 8 9).length ∧ (5 : Nat) < 8 ∧
      (dispatch 1 ⟨1⟩ [9])[0]? = some 0 ∧
      (dispatch 4 ⟨2⟩ [9, 9, 9, 9])[3]? = some 6 ∧
      (dispatch 8 ⟨0⟩ (List.replicate 8 9))[5]? = some 0 :=
  ⟨by decide, by decide, by decide, by decide,
    dispatch_concrete_scenarios.1 [9] (by decide),
    (dispatch_concrete_scenarios.2.1 [9, 9, 9, 9] (by decide)).2.2.2,
    dispatch_concrete_scenarios.2.2 (List.replicate 8 9) (by decide) 5 (by decide)⟩

/-- C4: with `N = 3` and `m = -1`, the first three slots after the
dispatch are `0`, `-1` and `-2` wrapped to the buffer's 32-bit unsigned
element width, i.e. `0`, `4294967295` and `4294967294`. -/
theorem dispatch_negative_multiplier_wraps (buf : List Nat) (hlen : 3 ≤ buf.length) :
    (dispatch 3 ⟨-1⟩ buf)[0]? = some 0 ∧
      (dispatch 3 ⟨-1⟩ buf)[1]? = some 4294967295 ∧
      (dispatch 3 ⟨-1⟩ buf)[2]? = some 4294967294 := by
  refine ⟨?_, ?_, ?_⟩ <;>
    [rw [getElem?_dispatch, if_pos ⟨by omega, by omega⟩];
     rw [getElem?_dispatch, if_pos ⟨by omega, by omega⟩];
     rw [getElem?_dispatch, if_pos ⟨by omega, by omega⟩]] <;>
    norm_num [writtenValue, uintOfInt] <;> decide

theorem dispatch_negative_multiplier_wraps_witness :
    (3 : Nat) ≤ ([0, 0, 0] : List Nat).length ∧
      ((dispatch 3 ⟨-1⟩ [0, 0, 0])[0]? = some 0 ∧
        (dispatch 3 ⟨-1⟩ [0, 0, 0])[1]? = some 4294967295 ∧
        (dispatch 3 ⟨-1⟩ [0, 0, 0])[2]? = some 4294967294) :=
  ⟨by decide, dispatch_negative_multiplier_wraps [0, 0, 0] (by decide)⟩

/-- C5: the dispatch is idempotent — running it twice with the same size
and multiplier leaves the buffer exactly as running it once. -/
theorem dispatch_idempotent (N : Nat) (m : Int) (buf : List Nat)
    (hlen : N ≤ buf.length) :
    dispatch N ⟨m⟩ (dispatch N ⟨m⟩ buf) = dispatch N ⟨m⟩ buf := by
  apply List.ext_getElem?
  intro j
  conv_lhs => rw [getElem?_dispatch]
  rw [length_dispatch]
  by_cases h : j < N ∧ j < buf.length
  · rw [if_pos h, getElem?_dispatch, if_pos h]
  · rw [if_neg h]

theorem dispatch_idempotent_witness :
    (2 : Nat) ≤ ([3, 3] : List Nat).length ∧
      dispatch 2 ⟨6⟩ (dispatch 2 ⟨6⟩ [3, 3]) = dispatch 2 ⟨6⟩ [3, 3] :=
  ⟨by decide, dispatch_idempotent 2 6 [3, 3] (by decide)⟩

/-- C6: the kernel is deterministic and stateless — for any two initial
buffers of length at least `N`, the dispatched results agree on every
slot in `[0, N)`; the written values depend only on `N` and `m`. -/
theorem dispatch_deterministic_stateless (N : Nat) (m : Int)
    (buf1 buf2 : List Nat) (h1 : N ≤ buf1.length) (h2 : N ≤ buf2.length)
    (i : Nat) (hi : i < N) :
    (dispatch N ⟨m⟩ buf1)[i]? = (dispatch N ⟨m⟩ buf2)[i]? := by
  rw [getElem?_dispatch, getElem?_dispatch,
    if_pos ⟨hi, by omega⟩, if_pos ⟨hi, by omega⟩]

theorem dispatch_deterministic_stateless_witness :
    (2 : Nat) ≤ ([10, 20] : List Nat).length ∧
      (2 : Nat) ≤ ([30, 40, 50] : List Nat).length ∧ (1 : Nat) < 2 ∧
      (dispatch 2 ⟨9⟩ [10, 20])[1]? = (dispatch 2 ⟨9⟩ [30, 40, 50])[1]? :=
  ⟨by decide, by decide, by decide,
    dispatch_deterministic_stateless 2 9 [10, 20] [30, 40, 50]
      (by decide) (by decide) 1 (by decide)⟩

lemma foldlM_checked_eq (pc : PCData) :
    ∀ (l : List Nat) (buf : List Nat),
      (∀ i ∈ l, invocationTarget i < buf.length) →
      l.foldlM
          (fun b i => if invocationTarget i < b.length then some (kernelMain pc i b) else none)
          buf
        = some (l.foldl (fun b i => kernelMain pc i b) buf) := by
  intro l
  induction l with
  | nil => intro buf _; rfl
  | cons i l ih =>
    intro buf h
    have hi : invocationTarget i < buf.length := h i (List.mem_cons_self i l)
    have hrest : ∀ a ∈ l, invocationTarget a < (kernelMain pc i buf).length := by
      intro a ha
      rw [length_main]
      exact h a (List.mem_cons_of_mem i ha)
    rw [List.foldlM_cons, if_pos hi]
    simpa [List.foldl_cons] using ih (kernelMain pc i buf) hrest

/-- C7: under the precondition that the buffer length is at least the
dispatch size, every buffer access `buf.data[idx]` made by the kernel is
in bounds, and the bounds-checked dispatch completes without hitting any
error branch, returning exactly the unchecked dispatch's result. -/
theorem dispatch_accesses_in_bounds (N : Nat) (m : Int) (buf : List Nat)
    (hlen : N ≤ buf.length) :
    (∀ i, i < N → invocationTarget i < buf.length) ∧
      dispatchChecked N ⟨m⟩ buf = some (dispatch N ⟨m⟩ buf) := by
  constructor
  · intro i hi
    calc invocationTarget i = i := rfl
      _ < buf.length := lt_of_lt_of_le hi hlen
  · refine foldlM_checked_eq ⟨m⟩ (List.range N) buf ?_
    intro i hi
    rw [List.mem_range] at hi
    calc invocationTarget i = i := rfl
      _ < buf.length := lt_of_lt_of_le hi hlen

theorem dispatch_accesses_in_bounds_witness :
    (3 : Nat) ≤ ([1, 1, 1] : List Nat).length ∧
      ((∀ i, i < 3 → invocationTarget i < ([1, 1, 1] : List Nat).length) ∧
        dispatchChecked 3 ⟨-4⟩ [1, 1, 1] = some (dispatch 3 ⟨-4⟩ [1, 1, 1])) :=
  ⟨by decide, dispatch_accesses_in_bounds 3 (-4) [1, 1, 1] (by decide)⟩

/-- C8: the final buffer is independent of invocation order — running the
per-invocation writes sequentially in any permutation of `[0, N)` yields
exactly the buffer produced by running them in identifier order. -/
theorem dispatch_order_independent (N : Nat) (m : Int) (buf : List Nat)
    (hlen : N ≤ buf.length) (order : List Nat)
    (hperm : order.Perm (List.range N)) :
    order.foldl (fun b i => kernelMain ⟨m⟩ i b) buf = dispatch N ⟨m⟩ buf := by
  apply List.ext_getElem?
  intro j
  rw [getElem?_foldl_main, getElem?_dispatch]
  have hmem : j ∈ order ↔ j < N := by rw [hperm.mem_iff, List.mem_range]
  by_cases h : j < N ∧ j < buf.length
  · rw [if_pos ⟨hmem.mpr h.1, h.2⟩, if_pos h]
  · rw [if_neg (fun hc => h ⟨hmem.mp hc.1, hc.2⟩), if_neg h]

theorem dispatch_order_independent_witness :
    (3 : Nat) ≤ ([8, 8, 8] : List Nat).length ∧
      ([2, 0, 1] : List Nat).Perm (List.range 3) ∧
      [2, 0, 1].foldl (fun b i => kernelMain ⟨5⟩ i b) [8, 8, 8] =
        dispatch 3 ⟨5⟩ [8, 8, 8] :=
  ⟨by decide, by decide,
    dispatch_order_independent 3 5 [8, 8, 8] (by decide) [2, 0, 1] (by decide)⟩

/-- C9: the transcribed enumeration constants carry exactly the numeric
values written next to them in the source, and every alias constant
equals its canonical constant: `VK_COLORSPACE_SRGB_NONLINEAR_KHR` and
`VK_COLOR_SPACE_SRGB_NONLINEAR_KHR` are 0, `VK_COLOR_SPACE_DCI_P3_LINEAR_EXT`
and `VK_COLOR_SPACE_DISPLAY_P3_LINEAR_EXT` are 1000104003, the four
`VK_ATTACHMENT_STORE_OP_NONE*` constants are 1000301000, and the
`VK_IMAGE_ASPECT_*_KHR` aliases equal their non-`KHR` counterparts. -/
theorem vk_enum_values_and_aliases :
    VK_COLORSPACE_SRGB_NONLINEAR_KHR = VK_COLOR_SPACE_SRGB_NONLINEAR_KHR ∧
      VK_COLOR_SPACE_SRGB_NONLINEAR_KHR = 0 ∧
      VK_COLOR_SPACE_DCI_P3_LINEAR_EXT = VK_COLOR_SPACE_DISPLAY_P3_LINEAR_EXT ∧
      VK_COLOR_SPACE_DISPLAY_P3_LINEAR_EXT = 1000104003 ∧
      VK_ATTACHMENT_STORE_OP_NONE_KHR = VK_ATTACHMENT_STORE_OP_NONE ∧
      VK_ATTACHMENT_STORE_OP_NONE_QCOM = VK_ATTACHMENT_STORE_OP_NONE ∧
      VK_ATTACHMENT_STORE_OP_NONE_EXT = VK_ATTACHMENT_STORE_OP_NONE ∧
      VK_ATTACHMENT_STORE_OP_NONE = 1000301000 ∧
      VK_IMAGE_ASPECT_PLANE_0_BIT_KHR = VK_IMAGE_ASPECT_PLANE_0_BIT ∧
      VK_IMAGE_ASPECT_PLANE_1_BIT_KHR = VK_IMAGE_ASPECT_PLANE_1_BIT ∧
      VK_IMAGE_ASPECT_PLANE_2_BIT_KHR = VK_IMAGE_ASPECT_PLANE_2_BIT ∧
      VK_IMAGE_ASPECT_NONE_KHR = VK_IMAGE_ASPECT_NONE ∧
      VK_COLOR_SPACE_DISPLAY_P3_NONLINEAR_EXT = 1000104001 ∧
      VK_COLOR_SPACE_EXTENDED_SRGB_LINEAR_EXT = 1000104002 ∧
      VK_COLOR_SPACE_DCI_P3_NONLINEAR_EXT = 1000104004 ∧
      VK_COLOR_SPACE_BT709_LINEAR_EXT = 1000104005 ∧
      VK_COLOR_SPACE_BT709_NONLINEAR_EXT = 1000104006 ∧
      VK_COLOR_SPACE_BT2020_LINEAR_EXT = 1000104007 ∧
      VK_COLOR_SPACE_HDR10_ST2084_EXT = 1000104008 ∧
      VK_COLOR_SPACE_DOLBYVISION_EXT = 1000104009 ∧
      VK_COLOR_SPACE_HDR10_HLG_EXT = 1000104010 ∧
      VK_COLOR_SPACE_ADOBERGB_LINEAR_EXT = 1000104011 ∧
      VK_COLOR_SPACE_ADOBERGB_NONLINEAR_EXT = 1000104012 ∧
      VK_COLOR_SPACE_PASS_THROUGH_EXT = 1000104013 ∧
      VK_COLOR_SPACE_EXTENDED_SRGB_NONLINEAR_EXT = 1000104014 ∧
      VK_COLOR_SPACE_DISPLAY_NATIVE_AMD = 1000213000 ∧
      VK_ATTACHMENT_STORE_OP_STORE = 0 ∧
      VK_ATTACHMENT_STORE_OP_DONT_CARE = 1 ∧
      VK_IMAGE_ASPECT_COLOR_BIT = 1 ∧
      VK_IMAGE_ASPECT_DEPTH_BIT = 2 ∧
      VK_IMAGE_ASPECT_STENCIL_BIT = 4 ∧
      VK_IMAGE_ASPECT_METADATA_BIT = 8 ∧
      VK_IMAGE_ASPECT_PLANE_0_BIT = 16 ∧
      VK_IMAGE_ASPECT_PLANE_1_BIT = 32 ∧
      VK_IMAGE_ASPECT_PLANE_2_BIT = 64 ∧
      VK_IMAGE_ASPECT_NONE = 0 ∧
      VK_IMAGE_ASPECT_MEMORY_PLANE_0_BIT_EXT = 128 ∧
      VK_IMAGE_ASPECT_MEMORY_PLANE_1_BIT_EXT = 256 ∧
      VK_IMAGE_ASPECT_MEMORY_PLANE_2_BIT_EXT = 512 ∧
      VK_IMAGE_ASPECT_MEMORY_PLANE_3_BIT_EXT = 1024 := by
  decide

/-- C10: in each transcribed flag-bit enumeration
(`VkSwapchainCreateFlagBitsKHR`, `VkImageAspectFlagBits`,
`VkImageViewCreateFlagBits`, `VkAccelerationStructureCreateFlagBitsKHR`),
every non-zero, non-alias constant is a distinct power of two, and any
two distinct such flags are bitwise disjoint. -/
theorem vk_flag_bits_distinct_powers_of_two :
    (swapchainCreateFlagBitsKHR_distinct =
        [2 ^ 0, 2 ^ 1, 2 ^ 2, 2 ^ 3, 2 ^ 6, 2 ^ 7] ∧
      swapchainCreateFlagBitsKHR_distinct.Nodup ∧
      List.Pairwise (fun a b => a &&& b = 0) swapchainCreateFlagBitsKHR_distinct) ∧
    (imageAspectFlagBits_distinct =
        [2 ^ 0, 2 ^ 1, 2 ^ 2, 2 ^ 3, 2 ^ 4, 2 ^ 5, 2 ^ 6, 2 ^ 7, 2 ^ 8, 2 ^ 9, 2 ^ 10] ∧
      imageAspectFlagBits_distinct.Nodup ∧
      List.Pairwise (fun a b => a &&& b = 0) imageAspectFlagBits_distinct) ∧
    (imageViewCreateFlagBits_distinct = [2 ^ 0, 2 ^ 2, 2 ^ 1] ∧
      imageViewCreateFlagBits_distinct.Nodup ∧
      List.Pairwise (fun a b => a &&& b = 0) imageViewCreateFlagBits_distinct) ∧
    (accelerationStructureCreateFlagBitsKHR_distinct = [2 ^ 0, 2 ^ 3, 2 ^ 2] ∧
      accelerationStructureCreateFlagBitsKHR_distinct.Nodup ∧
      List.Pairwise (fun a b => a &&& b = 0)
        accelerationStructureCreateFlagBitsKHR_distinct) := by
  decide
